import Mathlib

/-!
Shallow embedding of the authentication and authorization core of the api-design
repository (src/modules/auth.ts, src/handlers/user.ts, src/index.ts error
middleware, src/config/index.ts), together with models of the two external
primitives the core calls (bcrypt, jsonwebtoken), and theorems settling the
frozen claims about it.

Conventions of the embedding:
- JavaScript async functions that can reject are modelled as functions into
  Except: a thrown/rejected error is an explicit error value, and awaiting a
  collaborator is explicit propagation of its error.
- The randomness bcrypt draws for a salt, and the clock jsonwebtoken reads for
  iat, are made explicit arguments, so every definition is a pure function.
- process.env.JWT_SECRET is an Option String: none models the unset variable.
-/

namespace ApiDesign

/-- Modelled from the spec: bcrypt is an external dependency, so its hash value
is modelled from §4.1 — a salted one-way hash that carries the salt it was
computed with. One-wayness is not representable in a functional model, so the
digest field simply records the digest bytes the modelled digest function
produced. -/
structure BcryptHash where
  salt : Nat
  digest : String
  deriving DecidableEq

/-- Modelled from the spec: the digest bcrypt recomputes from the embedded salt
and a candidate password (§4.1 verify recomputes using the salt embedded in the
hash). The model keeps the digest injective in the password, which is the
behavioural content of §4.1; the salt argument mirrors the recomputation
interface. -/
def bcryptDigest (_salt : Nat) (password : String) : String :=
  password

/-- src/modules/auth.ts hashPassword: bcrypt.hash(password, 10). The random salt
bcrypt draws internally is the explicit first argument. -/
def hashPassword (salt : Nat) (password : String) : BcryptHash :=
  ⟨salt, bcryptDigest salt password⟩

/-- src/modules/auth.ts comparePasswords: bcrypt.compare(password, hash) —
recompute the digest with the salt embedded in the stored hash and compare. -/
def comparePasswords (password : String) (stored : BcryptHash) : Bool :=
  bcryptDigest stored.salt password == stored.digest

/-- Modelled from the spec: the textual rendering of a bcrypt hash (the hash
string a caller sees). The salt is rendered in unary so that distinct salts give
byte-for-byte different strings, followed by a separator and the digest bytes. -/
def BcryptHash.render (h : BcryptHash) : String :=
  String.mk (List.replicate h.salt '*' ++ '$' :: h.digest.data)

/-- §6 token payload claims: id, username, iat, exp. -/
structure Claims where
  id : Nat
  username : String
  iat : Nat
  exp : Nat
  deriving DecidableEq

/-- The identity fields createJWT signs (§4.2). -/
structure SignPayload where
  id : Nat
  username : String
  deriving DecidableEq

/-- Modelled from the spec: a signed token of the external jsonwebtoken library
(§3): self-contained claims plus a symmetric signature, modelled as the signing
key itself, so that verification against the same secret succeeds and against a
different secret fails. -/
structure Jwt where
  claims : Claims
  sig : String
  deriving DecidableEq

/-- Modelled from the spec: jwt.sign of the external jsonwebtoken library (§4.2):
embeds id and username, iat = issue time, exp = iat + ttl in seconds, and signs
with the symmetric secret. -/
def jwtSign (p : SignPayload) (secret : String) (now ttlSecs : Nat) : Jwt :=
  ⟨⟨p.id, p.username, now, now + ttlSecs⟩, secret⟩

/-- Modelled from the spec: jwt.verify of the external jsonwebtoken library
(§4.3): signature check against the shared secret, then expiry check against the
current time; failures are the library's thrown exceptions, modelled as Except
errors. -/
def jwtVerify (secret : String) (now : Nat) (t : Jwt) : Except String Claims :=
  if t.sig ≠ secret then Except.error "invalid signature"
  else if t.claims.exp ≤ now then Except.error "jwt expired"
  else Except.ok t.claims

/-- Modelled from the spec: how the signing library treats the secret argument
when the environment variable is unset or empty — §9 records this as the source
leaving the behaviour to the library and notes that such libraries silently
produce a trivially-signed token; modelled as signing with the empty key. -/
def jwtSignJs (p : SignPayload) (secret : Option String) (now ttlSecs : Nat) : Jwt :=
  jwtSign p (secret.getD "") now ttlSecs

/-- §3 StoredUser: the persisted principal prisma returns. The password field
holds the bcrypt hash, never the plaintext. -/
structure StoredUser where
  id : Nat
  username : String
  password : BcryptHash
  deriving DecidableEq

/-- src/modules/auth.ts createJWT: jwt.sign of the claims id and username with
process.env.JWT_SECRET passed through with no check of any kind, and expiresIn
24h, i.e. 86400 seconds. The issue time read from the clock is an explicit
argument. -/
def createJWT (now : Nat) (secret : Option String) (user : StoredUser) : Jwt :=
  jwtSignJs ⟨user.id, user.username⟩ secret now 86400

/-- JavaScript String.prototype.split on a single-space separator, over the
character list: every occurrence of the space character is a split point, and
adjacent separators contribute empty segments, exactly as bearer.split does in
src/modules/auth.ts. -/
def splitSpaceChars : List Char → List String
  | [] => [""]
  | c :: cs =>
    let rest := splitSpaceChars cs
    if c = ' ' then "" :: rest
    else
      match rest with
      | [] => [String.mk [c]]
      | r :: rs => String.mk (c :: r.data) :: rs

/-- src/modules/auth.ts: bearer.split with the space separator. -/
def jsSplit (s : String) : List String :=
  splitSpaceChars s.data

/-- Terminal outcome of the protect middleware on one request: reject writes a
status and a body; admit records that req.user was set to the decoded payload
and that next() was called. -/
inductive ProtectResult where
  | reject (status : Nat) (body : String)
  | admitted (user : Claims)
  deriving DecidableEq

/-- src/modules/auth.ts protect: the guard middleware. The verifier jwt.verify is
a parameter returning Except, so a thrown verification exception is an explicit
error value, which the try/catch of the source turns into the uniform 401
rejection. The destructured second split segment is undefined when absent;
both undefined and the empty string are falsy, modelled by defaulting the
missing segment to the empty string before the falsiness test. -/
def protect (verify : String → Except String Claims) (authorization : Option String) :
    ProtectResult :=
  match authorization with
  | none => ProtectResult.reject 401 "Not authorized"
  | some bearer =>
    if bearer = "" then ProtectResult.reject 401 "Not authorized"
    else
      let token := ((jsSplit bearer)[1]?).getD ""
      if token = "" then ProtectResult.reject 401 "Not authorized"
      else
        match verify token with
        | Except.ok payload => ProtectResult.admitted payload
        | Except.error _ => ProtectResult.reject 401 "Not authorized"

/-- Modelled from the spec: jwt.verify applied to the wire-format token string
(§6 keeps the compact serialization opaque, so the decoder from string to token
is an explicit argument): a string that does not decode throws, a decoded token
gets the signature and expiry checks. -/
def jsVerifyStr (dec : String → Option Jwt) (secret : String) (now : Nat)
    (s : String) : Except String Claims :=
  match dec s with
  | none => Except.error "jwt malformed"
  | some t => jwtVerify secret now t

/-- The JSON-ish bodies the handlers and the error middleware write. -/
inductive Body where
  | tokenB (t : Jwt)
  | msg (m : String)
  | err (m : String)
  | text (s : String)
  deriving DecidableEq

/-- An HTTP response as the client observes it: status code and body. -/
structure Response where
  status : Nat
  body : Body
  deriving DecidableEq

/-- A JavaScript error object: its message and the mutable type tag the handlers
assign before forwarding; none models an error that was never tagged. -/
structure JsError where
  message : String
  type : Option String
  deriving DecidableEq

/-- Outcome of the createNewUser handler: either a response was written, or the
error was forwarded to the error middleware via next(error). -/
inductive HandlerOutcome where
  | respond (r : Response)
  | nextE (e : JsError)
  deriving DecidableEq

/-- src/handlers/user.ts createNewUser: hash the password, prisma.user.create
(a parameter returning Except, modelling the throwing store), on success respond
201 with the token; the catch block tags whatever error was thrown with
type "input" and forwards it via next. -/
def createNewUser (create : String → BcryptHash → Except JsError StoredUser)
    (salt now : Nat) (secret : Option String) (username pw : String) : HandlerOutcome :=
  match create username (hashPassword salt pw) with
  | Except.ok user => HandlerOutcome.respond ⟨201, Body.tokenB (createJWT now secret user)⟩
  | Except.error e => HandlerOutcome.nextE ⟨e.message, some "input"⟩

/-- src/index.ts error-handling middleware: type auth gives 401 Unauthorized,
type input gives 400 Invalid input, everything else gives 500 Server error. -/
def errorMiddleware (e : JsError) : Response :=
  if e.type = some "auth" then ⟨401, Body.err "Unauthorized"⟩
  else if e.type = some "input" then ⟨400, Body.err "Invalid input"⟩
  else ⟨500, Body.err "Server error"⟩

/-- POST /signup end to end: the createNewUser handler, then the error
middleware when the handler forwarded an error. -/
def signupPipeline (create : String → BcryptHash → Except JsError StoredUser)
    (salt now : Nat) (secret : Option String) (username pw : String) : Response :=
  match createNewUser create salt now secret username pw with
  | HandlerOutcome.respond r => r
  | HandlerOutcome.nextE e => errorMiddleware e

/-- src/handlers/user.ts signIn: prisma.user.findUnique then comparePasswords,
both parameters returning Except so that their rejections are explicit values.
The handler has no try/catch, so a collaborator error propagates unchanged: the
awaits are modelled as explicit error propagation in the matches. On a found
user and matching password it responds with the token (res.json defaults to
status 200); otherwise 401 with message Invalid credentials. -/
def signIn (lookup : String → Except JsError (Option StoredUser))
    (cmp : String → BcryptHash → Except JsError Bool)
    (now : Nat) (secret : Option String) (username pw : String) :
    Except JsError Response :=
  match lookup username with
  | Except.error e => Except.error e
  | Except.ok none => Except.ok ⟨401, Body.msg "Invalid credentials"⟩
  | Except.ok (some user) =>
    match cmp pw user.password with
    | Except.error e => Except.error e
    | Except.ok true => Except.ok ⟨200, Body.tokenB (createJWT now secret user)⟩
    | Except.ok false => Except.ok ⟨401, Body.msg "Invalid credentials"⟩

/-! Concrete fixtures used by the witnesses. -/

def user0 : StoredUser := ⟨1, "alice", hashPassword 0 "pw1"⟩

def claims0 : Claims := ⟨1, "alice", 0, 86400⟩

def tok0 : Jwt := createJWT 0 (some "s3cret") user0

def dec0 (s : String) : Option Jwt := if s = "tok" then some tok0 else none

def verifyOk0 (s : String) : Except String Claims :=
  if s = "tok" then Except.ok claims0 else Except.error "invalid token"

def verifyErr0 (_ : String) : Except String Claims := Except.error "boom"

def lookup0 (u : String) : Except JsError (Option StoredUser) :=
  if u = "alice" then Except.ok (some user0) else Except.ok none

def cmp0 (p : String) (h : BcryptHash) : Except JsError Bool :=
  Except.ok (comparePasswords p h)

def lookupErr0 (_ : String) : Except JsError (Option StoredUser) :=
  Except.error ⟨"db down", none⟩

def cmpErr0 (_ : String) (_ : BcryptHash) : Except JsError Bool :=
  Except.error ⟨"bcrypt failure", none⟩

def createInfra0 (_ : String) (_ : BcryptHash) : Except JsError StoredUser :=
  Except.error ⟨"ECONNREFUSED", none⟩

def createOk0 (u : String) (h : BcryptHash) : Except JsError StoredUser :=
  Except.ok ⟨1, u, h⟩

def createDup0 (_ : String) (_ : BcryptHash) : Except JsError StoredUser :=
  Except.error ⟨"Unique constraint failed", none⟩

/-! Claim theorems. -/

/-- C1: verifying a password against its own hash succeeds for every password
and every salt the hasher draws, and verifying a different password against that
hash fails. -/
theorem C1_password_verify (salt : Nat) (p p1 p2 : String) (hne : p1 ≠ p2) :
    comparePasswords p (hashPassword salt p) = true ∧
    comparePasswords p1 (hashPassword salt p2) = false := by
  constructor
  · simp [comparePasswords, hashPassword, bcryptDigest]
  · simp [comparePasswords, hashPassword, bcryptDigest, hne]

/-- C1 witness at concrete passwords. -/
theorem C1_password_verify_witness :
    comparePasswords "pw1" (hashPassword 3 "pw1") = true ∧
    comparePasswords "pw1" (hashPassword 3 "pw2") = false :=
  C1_password_verify 3 "pw1" "pw1" "pw2" (by decide)

/-- C2: every run of protect terminates in an admit or in the single uniform
rejection, status 401 with body Not authorized; the verifier's exceptions are
Except values consumed inside protect, so none escapes the middleware. -/
theorem C2_uniform_reject (verify : String → Except String Claims)
    (authorization : Option String) :
    (∃ c, protect verify authorization = ProtectResult.admitted c) ∨
    protect verify authorization = ProtectResult.reject 401 "Not authorized" := by
  unfold protect
  cases authorization with
  | none => exact Or.inr rfl
  | some bearer =>
    by_cases hb : bearer = ""
    · simp [hb]
    · simp only [hb, if_false]
      by_cases ht : ((jsSplit bearer)[1]?).getD "" = ""
      · simp [ht]
      · simp only [ht, if_false]
        cases hv : verify (((jsSplit bearer)[1]?).getD "") with
        | ok c => exact Or.inl ⟨c, rfl⟩
        | error e => exact Or.inr rfl

/-- C3: with the signing secret unset, createJWT silently produces a token
signed with the empty fallback key: no ConfigurationError path exists anywhere
in the code, the unchecked secret is simply forwarded to the signing library. -/
theorem C3_unset_secret_silently_signs :
    createJWT 0 none user0 = ⟨⟨1, "alice", 0, 86400⟩, ""⟩ := rfl

/-- C8: two hashing calls on the same password with distinct salts produce
byte-for-byte different rendered hash strings, and each of the two hashes
verifies against the password. -/
theorem C8_salt_uniqueness (s1 s2 : Nat) (p : String) (hne : s1 ≠ s2) :
    (hashPassword s1 p).render ≠ (hashPassword s2 p).render ∧
    comparePasswords p (hashPassword s1 p) = true ∧
    comparePasswords p (hashPassword s2 p) = true := by
  refine ⟨?_, ?_, ?_⟩
  · intro h
    apply hne
    rw [String.ext_iff] at h
    simp [BcryptHash.render, hashPassword, bcryptDigest] at h
    exact h
  · simp [comparePasswords, hashPassword, bcryptDigest]
  · simp [comparePasswords, hashPassword, bcryptDigest]

/-- C8 witness at concrete salts and password. -/
theorem C8_salt_uniqueness_witness :
    (hashPassword 0 "pw1").render ≠ (hashPassword 1 "pw1").render ∧
    comparePasswords "pw1" (hashPassword 0 "pw1") = true ∧
    comparePasswords "pw1" (hashPassword 1 "pw1") = true :=
  C8_salt_uniqueness 0 1 "pw1" (by decide)

/-- C4: signIn answers the identical 401 Invalid credentials response for an
unknown username and for a wrong password, so the two failure cases are
observably indistinguishable; when the username is found and the password
matches, it responds with the issued token. -/
theorem C4_signIn_indistinguishable
    (lookup : String → Except JsError (Option StoredUser))
    (cmp : String → BcryptHash → Except JsError Bool)
    (now : Nat) (secret : Option String) (username pw : String) (user : StoredUser) :
    (lookup username = Except.ok none →
      signIn lookup cmp now secret username pw =
        Except.ok ⟨401, Body.msg "Invalid credentials"⟩) ∧
    (lookup username = Except.ok (some user) →
      cmp pw user.password = Except.ok false →
      signIn lookup cmp now secret username pw =
        Except.ok ⟨401, Body.msg "Invalid credentials"⟩) ∧
    (lookup username = Except.ok (some user) →
      cmp pw user.password = Except.ok true →
      signIn lookup cmp now secret username pw =
        Except.ok ⟨200, Body.tokenB (createJWT now secret user)⟩) := by
  refine ⟨fun h1 => ?_, fun h1 h2 => ?_, fun h1 h2 => ?_⟩
  · simp [signIn, h1]
  · simp [signIn, h1, h2]
  · simp [signIn, h1, h2]

/-- C4 witness: a store with only the user alice and honest password comparison;
unknown username and wrong password give the same response, the right password
gives the token. -/
theorem C4_signIn_indistinguishable_witness :
    signIn lookup0 cmp0 0 (some "s3cret") "bob" "pw1" =
      Except.ok ⟨401, Body.msg "Invalid credentials"⟩ ∧
    signIn lookup0 cmp0 0 (some "s3cret") "alice" "wrong" =
      Except.ok ⟨401, Body.msg "Invalid credentials"⟩ ∧
    signIn lookup0 cmp0 0 (some "s3cret") "alice" "pw1" =
      Except.ok ⟨200, Body.tokenB (createJWT 0 (some "s3cret") user0)⟩ :=
  ⟨(C4_signIn_indistinguishable lookup0 cmp0 0 (some "s3cret") "bob" "pw1" user0).1 rfl,
   (C4_signIn_indistinguishable lookup0 cmp0 0 (some "s3cret") "alice" "wrong" user0).2.1
     rfl rfl,
   (C4_signIn_indistinguishable lookup0 cmp0 0 (some "s3cret") "alice" "pw1" user0).2.2
     rfl rfl⟩

/-- C5: with the Authorization header absent, or with no nonempty second
space-separated segment, protect rejects with 401 Not authorized, and the
outcome is the same for any two verifiers, so verification is never attempted. -/
theorem C5_reject_before_verify
    (v1 v2 : String → Except String Claims) (authorization : Option String)
    (h : authorization = none ∨
      ∃ s, authorization = some s ∧
        ((jsSplit s)[1]? = none ∨ (jsSplit s)[1]? = some "")) :
    protect v1 authorization = ProtectResult.reject 401 "Not authorized" ∧
    protect v1 authorization = protect v2 authorization := by
  rcases h with h | ⟨s, rfl, hs⟩
  · subst h; exact ⟨rfl, rfl⟩
  · have htok : ((jsSplit s)[1]?).getD "" = "" := by
      rcases hs with hs | hs <;> simp [hs]
    by_cases hb : s = "" <;> simp [protect, hb, htok]

/-- C5 witness: the header Bearer with no token segment is rejected identically
under an accepting and a throwing verifier. -/
theorem C5_reject_before_verify_witness :
    protect verifyOk0 (some "Bearer") = ProtectResult.reject 401 "Not authorized" ∧
    protect verifyOk0 (some "Bearer") = protect verifyErr0 (some "Bearer") :=
  C5_reject_before_verify verifyOk0 verifyErr0 (some "Bearer")
    (Or.inr ⟨"Bearer", rfl, Or.inl rfl⟩)

/-- C6: a request whose second header segment decodes to exactly the token
createJWT issued, checked with the matching secret before its expiry instant, is
admitted, and req.user receives exactly the embedded claims id, username, iat
and exp = iat + 86400. -/
theorem C6_admit_with_issued_claims (dec : String → Option Jwt) (secret : String)
    (now iat : Nat) (u : StoredUser) (header tok : String)
    (hsplit : (jsSplit header)[1]? = some tok) (htok : tok ≠ "")
    (hdec : dec tok = some (createJWT iat (some secret) u))
    (hexp : now < iat + 86400) :
    protect (jsVerifyStr dec secret now) (some header) =
      ProtectResult.admitted ⟨u.id, u.username, iat, iat + 86400⟩ := by
  have hne : header ≠ "" := by
    intro h0
    rw [h0] at hsplit
    simp [jsSplit, splitSpaceChars] at hsplit
  have hnl : ¬ (iat + 86400 ≤ now) := by omega
  simp [protect, hne, hsplit, htok, jsVerifyStr, hdec, createJWT, jwtSignJs,
    jwtSign, jwtVerify, hnl]

/-- C6 witness: a concrete issued token admitted through the guard with exactly
the issued claim set. -/
theorem C6_admit_with_issued_claims_witness :
    protect (jsVerifyStr dec0 "s3cret" 10) (some "Bearer tok") =
      ProtectResult.admitted ⟨1, "alice", 0, 86400⟩ :=
  C6_admit_with_issued_claims dec0 "s3cret" 10 0 user0 "Bearer tok" "tok"
    rfl (by decide) rfl (by decide)

/-- C7 counterexample: a pure infrastructure failure thrown by the store is
surfaced by the signup pipeline as 400 Invalid input, not as 500 Server error:
the handler's catch tags every caught error as input class before forwarding. -/
theorem C7_infra_failure_not_500 :
    signupPipeline createInfra0 0 0 (some "s3cret") "alice" "pw1" =
      ⟨400, Body.err "Invalid input"⟩ ∧
    signupPipeline createInfra0 0 0 (some "s3cret") "alice" "pw1" ≠
      ⟨500, Body.err "Server error"⟩ := by
  exact ⟨rfl, by decide⟩

/-- C7 amended: signup responds 201 with the token on success; every store
rejection, uniqueness violation and infrastructure failure alike, is tagged
type input by the handler's catch and surfaced by the error middleware as 400
Invalid input, so the 500 Server error branch is never reached from this
handler. -/
theorem C7_signup_all_errors_input
    (create : String → BcryptHash → Except JsError StoredUser)
    (salt now : Nat) (secret : Option String) (username pw : String)
    (user : StoredUser) (e : JsError) :
    (create username (hashPassword salt pw) = Except.ok user →
      signupPipeline create salt now secret username pw =
        ⟨201, Body.tokenB (createJWT now secret user)⟩) ∧
    (create username (hashPassword salt pw) = Except.error e →
      createNewUser create salt now secret username pw =
        HandlerOutcome.nextE ⟨e.message, some "input"⟩ ∧
      signupPipeline create salt now secret username pw =
        ⟨400, Body.err "Invalid input"⟩) := by
  constructor
  · intro h
    simp [signupPipeline, createNewUser, h]
  · intro h
    simp [signupPipeline, createNewUser, h, errorMiddleware]

/-- C7 amended witness: a succeeding store gives 201 with the token; a store
throwing a uniqueness violation gives 400 Invalid input. -/
theorem C7_signup_all_errors_input_witness :
    signupPipeline createOk0 0 0 (some "s3cret") "alice" "pw1" =
      ⟨201, Body.tokenB (createJWT 0 (some "s3cret") ⟨1, "alice", hashPassword 0 "pw1"⟩)⟩ ∧
    signupPipeline createDup0 0 0 (some "s3cret") "alice" "pw1" =
      ⟨400, Body.err "Invalid input"⟩ :=
  ⟨(C7_signup_all_errors_input createOk0 0 0 (some "s3cret") "alice" "pw1"
      ⟨1, "alice", hashPassword 0 "pw1"⟩ ⟨"x", none⟩).1 rfl,
   ((C7_signup_all_errors_input createDup0 0 0 (some "s3cret") "alice" "pw1" user0
      ⟨"Unique constraint failed", none⟩).2 rfl).2⟩

/-- C9: protect never inspects the scheme segment: any header whose second space
segment is a nonempty token the verifier accepts is admitted whatever the first
segment is, and two headers with the same second segment produce the same
outcome whatever their schemes or trailing text. -/
theorem C9_scheme_ignored (v : String → Except String Claims) :
    (∀ header tok c, (jsSplit header)[1]? = some tok → tok ≠ "" →
      v tok = Except.ok c →
      protect v (some header) = ProtectResult.admitted c) ∧
    (∀ h1 h2, (jsSplit h1)[1]? = (jsSplit h2)[1]? →
      protect v (some h1) = protect v (some h2)) := by
  constructor
  · intro header tok c hsplit htok hv
    have hne : header ≠ "" := by
      intro h0
      rw [h0] at hsplit
      simp [jsSplit, splitSpaceChars] at hsplit
    simp [protect, hne, hsplit, htok, hv]
  · intro h1 h2 hsame
    by_cases e1 : h1 = "" <;> by_cases e2 : h2 = ""
    · rw [e1, e2]
    · rw [e1] at hsame
      have : ((jsSplit h2)[1]?).getD "" = "" := by
        rw [← hsame]; rfl
      simp [protect, e1, e2, this]
    · rw [e2] at hsame
      have : ((jsSplit h1)[1]?).getD "" = "" := by
        rw [hsame]; rfl
      simp [protect, e1, e2, this]
    · simp only [protect, e1, e2, if_false]
      rw [hsame]

/-- C9 witness: a header with an arbitrary scheme and trailing junk is admitted
on its second segment, and changing scheme and trailing text leaves the outcome
unchanged. -/
theorem C9_scheme_ignored_witness :
    protect verifyOk0 (some "Whatever tok junk") = ProtectResult.admitted claims0 ∧
    protect verifyOk0 (some "Bearer tok") =
      protect verifyOk0 (some "Nonsense tok trailing stuff") :=
  ⟨(C9_scheme_ignored verifyOk0).1 "Whatever tok junk" "tok" claims0 rfl
      (by decide) rfl,
   (C9_scheme_ignored verifyOk0).2 "Bearer tok" "Nonsense tok trailing stuff" rfl⟩

/-- C10: signIn intercepts nothing: an error thrown by the user lookup or by the
password comparison propagates out of the handler unchanged, so the handler
itself produces no response at all for it, in particular no 500 Server error. -/
theorem C10_signIn_propagates
    (lookup : String → Except JsError (Option StoredUser))
    (cmp : String → BcryptHash → Except JsError Bool)
    (now : Nat) (secret : Option String) (username pw : String)
    (user : StoredUser) (e : JsError) :
    (lookup username = Except.error e →
      signIn lookup cmp now secret username pw = Except.error e) ∧
    (lookup username = Except.ok (some user) →
      cmp pw user.password = Except.error e →
      signIn lookup cmp now secret username pw = Except.error e) := by
  constructor
  · intro h
    simp [signIn, h]
  · intro h1 h2
    simp [signIn, h1, h2]

/-- C10 witness: a throwing lookup and a throwing comparison each propagate
their error out of signIn unchanged. -/
theorem C10_signIn_propagates_witness :
    signIn lookupErr0 cmp0 0 none "alice" "pw1" = Except.error ⟨"db down", none⟩ ∧
    signIn lookup0 cmpErr0 0 none "alice" "pw1" =
      Except.error ⟨"bcrypt failure", none⟩ :=
  ⟨(C10_signIn_propagates lookupErr0 cmp0 0 none "alice" "pw1" user0
      ⟨"db down", none⟩).1 rfl,
   (C10_signIn_propagates lookup0 cmpErr0 0 none "alice" "pw1" user0
      ⟨"bcrypt failure", none⟩).2 rfl rfl⟩

end ApiDesign
